import Mathlib

/-!
# Verification of the MaVi GPT conversation flow

Shallow embedding of the conversation controller of the MaVi chat
application: the Gemini wrapper (`src/gemini.js`, `generateResponse`) and
the chat component (`src/components/Chat.jsx`, `loadChatHistory` and
`handleSend`), together with the Firestore query it issues
(filter by `userId`, order ascending by `timestamp`).

External services (the Gemini model, the Firestore store) are passed in as
explicit parameters: the model is a function `String → Except String String`
(a JS promise that either fulfills with text or rejects with an error whose
`message` is the `String`); the history query result is an
`Except String (List FirestoreChatDoc)`.  JS string primitives used by the
code (`trim`, `includes`) are modelled over the character list of the
string.
-/

deriving instance DecidableEq for Except

/-- Model of JS whitespace as used by `String.prototype.trim` (restricted to
the ASCII whitespace forms relevant here). -/
def isJsSpace (c : Char) : Bool :=
  c == ' ' || c == '\t' || c == '\n' || c == '\r'

/-- Model of JS `String.prototype.trim`: strip leading and trailing
whitespace. -/
def jsTrim (s : String) : String :=
  ⟨((s.data.dropWhile isJsSpace).reverse.dropWhile isJsSpace).reverse⟩

/-- Model of JS `String.prototype.includes`: substring containment. -/
def jsIncludes (s pat : String) : Bool :=
  decide (pat.data <:+: s.data)

/-! ## Gemini wrapper (`src/gemini.js`) -/

/-- The fixed text thrown by `generateResponse` when the caught error's
message contains `'quota'`. -/
def quotaExceededMessage : String :=
  "⚠️ API Quota Exceeded! Your free tier limit has been reached. Please wait 24 hours for quota reset or upgrade your API key."

/-- The fixed text thrown by `generateResponse` when the caught error's
message contains `'429'` or `'Too Many Requests'`. -/
def rateLimitMessage : String :=
  "⚠️ Rate Limit Exceeded! Too many requests. Please wait a few minutes and try again."

/-- The catch-block of `generateResponse` in `src/gemini.js`: rethrow a
quota error as `quotaExceededMessage`, a rate-limit error as
`rateLimitMessage`, and any other error unchanged. -/
def classifyGeminiError (msg : String) : String :=
  if jsIncludes msg "quota" then quotaExceededMessage
  else if jsIncludes msg "429" || jsIncludes msg "Too Many Requests" then rateLimitMessage
  else msg

/-- `generateResponse` of `src/gemini.js`.  `gen` is the external
`model.generateContent` call.  Returns the promise outcome together with
the number of model invocations performed (0 or 1).  The empty-prompt guard
throws inside the `try`, so its error also flows through the catch-block
classifier (which leaves it unchanged). -/
def generateResponse (gen : String → Except String String) (prompt : String) :
    Except String String × Nat :=
  if prompt = "" ∨ (jsTrim prompt).length = 0 then
    (Except.error (classifyGeminiError "Prompt cannot be empty"), 0)
  else
    match gen prompt with
    | Except.ok t => (Except.ok t, 1)
    | Except.error e => (Except.error (classifyGeminiError e), 1)

/-! ## Data model (`src/components/Chat.jsx`) -/

/-- Sender of a rendered chat bubble. -/
inductive Sender where
  | user : Sender
  | ai : Sender
deriving DecidableEq

/-- One rendered chat bubble, as pushed into the `messages` state. -/
structure DisplayMessage where
  text : String
  sender : Sender
deriving DecidableEq

/-- One document of the Firestore `chats` collection, as written by
`handleSend` (`addDoc`): `{ userId, userPrompt, aiResponse, timestamp }`.
Timestamps are modelled as naturals. -/
structure FirestoreChatDoc where
  userId : String
  userPrompt : String
  aiResponse : String
  timestamp : Nat
deriving DecidableEq

/-- The fields `loadChatHistory` extracts from a fetched document:
`{ userPrompt, aiResponse, timestamp }`. -/
structure ChatHistoryEntry where
  userPrompt : String
  aiResponse : String
  timestamp : Nat
deriving DecidableEq

/-- Field extraction done in the `querySnapshot.forEach` loop of
`loadChatHistory`. -/
def toHistoryEntry (d : FirestoreChatDoc) : ChatHistoryEntry :=
  ⟨d.userPrompt, d.aiResponse, d.timestamp⟩

/-! ### The Firestore query

`loadChatHistory` issues
`query(collection(db,'chats'), where('userId','==',user.uid), orderBy('timestamp','asc'))`.
We model the store as the list of all documents of the `chats` collection;
the query filters by owner and sorts ascending by timestamp (insertion
sort, stable). -/

/-- Insert a document into a timestamp-sorted list, after all documents of
smaller-or-equal timestamp. -/
def sortInsert (d : FirestoreChatDoc) : List FirestoreChatDoc → List FirestoreChatDoc
  | [] => [d]
  | e :: rest => if e.timestamp ≤ d.timestamp then e :: sortInsert d rest else d :: e :: rest

/-- Sort a list of documents ascending by timestamp (the `orderBy` clause of
the query). -/
def sortByTimestamp : List FirestoreChatDoc → List FirestoreChatDoc
  | [] => []
  | d :: rest => sortInsert d (sortByTimestamp rest)

/-- The Firestore query of `loadChatHistory`: all documents of the `chats`
collection with `userId == uid`, ordered ascending by `timestamp`. -/
def chatQuery (store : List FirestoreChatDoc) (uid : String) : List FirestoreChatDoc :=
  sortByTimestamp (store.filter (fun d => d.userId == uid))

/-- The `chatHistory.forEach` loop of `loadChatHistory`: one turn expands to
a user bubble holding `userPrompt` followed by an ai bubble holding
`aiResponse`. -/
def formatMessages : List ChatHistoryEntry → List DisplayMessage
  | [] => []
  | c :: rest =>
      ⟨c.userPrompt, Sender.user⟩ :: ⟨c.aiResponse, Sender.ai⟩ :: formatMessages rest

/-! ### Component state -/

/-- State of the `Chat` component.  `messages`, `input` and `loading` are the
three `useState` cells.  The remaining fields record the component's
interactions with the outside world so that properties can be stated about
them: `outstanding` holds the prompts of `generateResponse` calls begun but
not yet resolved, `writes` the `addDoc` calls attempted, `genCalls` the
number of `model.generateContent` invocations, `errorLog` the
`console.error` messages.  `loadedTurns` is a ghost field recording the
turns returned by the history query; it is only written by
`loadChatHistory` and only read by invariant statements. -/
structure ChatState where
  messages : List DisplayMessage
  input : String
  loading : Bool
  outstanding : List String
  loadedTurns : List ChatHistoryEntry
  writes : List FirestoreChatDoc
  genCalls : Nat
  errorLog : List String
deriving DecidableEq

/-- The component's state on mount: `useState([])`, `useState('')`,
`useState(false)`. -/
def initialChatState : ChatState :=
  { messages := [], input := "", loading := false, outstanding := []
    loadedTurns := [], writes := [], genCalls := 0, errorLog := [] }

/-- `loadChatHistory` of `Chat.jsx`.  `user` is `none` when no user is
logged in (`if (!user) return`).  On query success the fetched documents
are projected to `{userPrompt, aiResponse, timestamp}` and flattened into
bubbles, replacing `messages`; on query failure the error is logged and
`messages` is left untouched. -/
def loadChatHistory (user : Option String)
    (queryResult : Except String (List FirestoreChatDoc)) (s : ChatState) : ChatState :=
  match user with
  | none => s
  | some uid =>
    match queryResult with
    | Except.ok store =>
        let chatHistory := (chatQuery store uid).map toHistoryEntry
        { s with messages := formatMessages chatHistory, loadedTurns := chatHistory }
    | Except.error e => { s with errorLog := s.errorLog ++ [e] }

/-- The synchronous prefix of `handleSend`, up to the `await`: the guard
`if (!input.trim() || loading) return`, then `setInput('')`, the optimistic
append of the user bubble, `setLoading(true)`, and the start of the
`generateResponse` call (recorded in `outstanding`). -/
def handleSendStart (s : ChatState) : ChatState :=
  if jsTrim s.input = "" ∨ s.loading = true then s
  else
    { s with
      messages := s.messages ++ [⟨jsTrim s.input, Sender.user⟩]
      input := ""
      loading := true
      outstanding := s.outstanding ++ [jsTrim s.input] }

/-- The generic fallback shown when the caught error carries no message
(`error.message || '...'`). -/
def genericErrorMessage : String :=
  "Sorry, I encountered an error. Please try again."

/-- The continuation of `handleSend` after `await generateResponse(...)`
resolves.  On fulfilment: append the ai bubble, `setLoading(false)`, then
fire-and-forget `addDoc({userId, userPrompt, aiResponse, timestamp})`.  On
rejection: log, append an ai bubble with `error.message` (or the generic
fallback when the message is absent/empty), `setLoading(false)`; nothing is
persisted. -/
def handleSendResolve (gen : String → Except String String) (uid : String) (now : Nat)
    (s : ChatState) : ChatState :=
  match s.outstanding with
  | [] => s
  | p :: rest =>
    let r := generateResponse gen p
    match r.1 with
    | Except.ok aiResponse =>
        { s with
          messages := s.messages ++ [⟨aiResponse, Sender.ai⟩]
          loading := false
          outstanding := rest
          genCalls := s.genCalls + r.2
          writes := s.writes ++ [⟨uid, p, aiResponse, now⟩] }
    | Except.error e =>
        { s with
          messages := s.messages ++ [⟨(if e = "" then genericErrorMessage else e), Sender.ai⟩]
          loading := false
          outstanding := rest
          genCalls := s.genCalls + r.2
          errorLog := s.errorLog ++ [e] }

/-- A full `handleSend` call viewed as one operation: if the guard rejects,
nothing at all happens; otherwise the synchronous prefix runs and the
single `generateResponse` call resolves. -/
def handleSend (gen : String → Except String String) (uid : String) (now : Nat)
    (s : ChatState) : ChatState :=
  if jsTrim s.input = "" ∨ s.loading = true then s
  else handleSendResolve gen uid now (handleSendStart s)

/-- `setInput` driven by typing in the text box. -/
def setInputState (t : String) (s : ChatState) : ChatState :=
  { s with input := t }

/-! ## The React effect guard

`loadChatHistory` runs inside `useEffect(..., [user])`: the effect body runs
after a render exactly when the dependency array differs from the one of
the previous effect run (absent before the first render).  `EffectCell`
models the component instance together with that guard; `queries` counts
the `getDocs` calls issued against the store. -/

structure EffectCell where
  lastDeps : Option (Option String)
  queries : Nat
  state : ChatState
deriving DecidableEq

/-- One render of the `Chat` component for session `user`: run the
`loadChatHistory` effect iff the `[user]` dependency changed; the effect
body issues a store query only when a user is logged in
(`if (!user) return`). -/
def renderChatEffect (queryResult : Except String (List FirestoreChatDoc))
    (user : Option String) (c : EffectCell) : EffectCell :=
  if c.lastDeps = some user then c
  else
    { lastDeps := some user
      queries := c.queries + (match user with | none => 0 | some _ => 1)
      state := loadChatHistory user queryResult c.state }

/-! ## The controller's step relation

States reachable from a mounted `Chat` component for one authenticated
owner `uid`: the history load resolves first (the component's lifecycle —
with any outcome `r`), after which the user may type, click send (the
synchronous prefix) and have the pending generation call resolve, in any
order the event loop allows. -/

inductive Reachable (gen : String → Except String String) (uid : String) (now : Nat) :
    ChatState → Prop
  | loaded (r : Except String (List FirestoreChatDoc)) :
      Reachable gen uid now (loadChatHistory (some uid) r initialChatState)
  | typed (t : String) (s : ChatState) (hs : Reachable gen uid now s) :
      Reachable gen uid now (setInputState t s)
  | clicked (s : ChatState) (hs : Reachable gen uid now s) :
      Reachable gen uid now (handleSendStart s)
  | resolved (s : ChatState) (hs : Reachable gen uid now s) :
      Reachable gen uid now (handleSendResolve gen uid now s)

/-- Flatten a list of (prompt, reply) pairs into bubbles, the shape a send
operation appends in. -/
def pairMessages : List (String × String) → List DisplayMessage
  | [] => []
  | (p, r) :: rest => ⟨p, Sender.user⟩ :: ⟨r, Sender.ai⟩ :: pairMessages rest

/-- State invariant of the conversation controller: the in-flight flag
mirrors the pending generation call, at most one call is pending, and the
bubble list is the flattening of the loaded turns followed by completed
(prompt, reply) pairs, then the optimistic bubble of the pending call. -/
def ChatInv (s : ChatState) : Prop :=
  (s.loading = true ↔ s.outstanding ≠ []) ∧
  s.outstanding.length ≤ 1 ∧
  ∃ pairs : List (String × String),
    s.messages = formatMessages s.loadedTurns ++ pairMessages pairs
      ++ s.outstanding.map (fun p => ⟨p, Sender.user⟩)

/-! ## Helper lemmas -/

lemma pairMessages_append (l₁ l₂ : List (String × String)) :
    pairMessages (l₁ ++ l₂) = pairMessages l₁ ++ pairMessages l₂ := by
  induction l₁ with
  | nil => rfl
  | cons pr rest ih => obtain ⟨p, r⟩ := pr; simp [pairMessages, ih]

lemma formatMessages_length (l : List ChatHistoryEntry) :
    (formatMessages l).length = 2 * l.length := by
  induction l with
  | nil => rfl
  | cons c rest ih => simp [formatMessages, ih]; omega

lemma formatMessages_drop (i : Nat) (l : List ChatHistoryEntry) :
    (formatMessages l).drop (2 * i) = formatMessages (l.drop i) := by
  induction i generalizing l with
  | zero => simp
  | succ j ih =>
    cases l with
    | nil => simp [formatMessages]
    | cons c rest =>
      have h2 : 2 * (j + 1) = 2 * j + 1 + 1 := by omega
      simp [formatMessages, h2, List.drop_succ_cons, ih]

lemma sortInsert_length (d : FirestoreChatDoc) (l : List FirestoreChatDoc) :
    (sortInsert d l).length = l.length + 1 := by
  induction l with
  | nil => rfl
  | cons e rest ih =>
    by_cases h : e.timestamp ≤ d.timestamp <;> simp [sortInsert, h, ih]

lemma sortByTimestamp_length (l : List FirestoreChatDoc) :
    (sortByTimestamp l).length = l.length := by
  induction l with
  | nil => rfl
  | cons d rest ih => simp [sortByTimestamp, sortInsert_length, ih]

lemma sortInsert_mem {x d : FirestoreChatDoc} :
    ∀ {l : List FirestoreChatDoc}, x ∈ sortInsert d l → x = d ∨ x ∈ l
  | [], h => by simpa [sortInsert] using h
  | e :: rest, h => by
    by_cases hc : e.timestamp ≤ d.timestamp
    · simp only [sortInsert] at h
      rw [if_pos hc] at h
      rcases List.mem_cons.mp h with h' | h'
      · exact Or.inr (by simp [h'])
      · rcases sortInsert_mem h' with h'' | h''
        · exact Or.inl h''
        · exact Or.inr (by simp [h''])
    · simp only [sortInsert] at h
      rw [if_neg hc] at h
      rcases List.mem_cons.mp h with h' | h'
      · exact Or.inl h'
      · exact Or.inr h'

lemma sortInsert_pairwise (d : FirestoreChatDoc) :
    ∀ l : List FirestoreChatDoc, l.Pairwise (fun a b => a.timestamp ≤ b.timestamp) →
      (sortInsert d l).Pairwise (fun a b => a.timestamp ≤ b.timestamp)
  | [], _ => by simp [sortInsert]
  | e :: rest, h => by
    rcases List.pairwise_cons.mp h with ⟨he, hrest⟩
    by_cases hc : e.timestamp ≤ d.timestamp
    · simp only [sortInsert]
      rw [if_pos hc]
      refine List.pairwise_cons.mpr ⟨?_, sortInsert_pairwise d rest hrest⟩
      intro x hx
      rcases sortInsert_mem hx with h' | h'
      · exact h' ▸ hc
      · exact he x h'
    · simp only [sortInsert]
      rw [if_neg hc]
      have hd : d.timestamp ≤ e.timestamp := Nat.le_of_not_le hc
      refine List.pairwise_cons.mpr ⟨?_, h⟩
      intro x hx
      rcases List.mem_cons.mp hx with h' | h'
      · exact h' ▸ hd
      · exact Nat.le_trans hd (he x h')

lemma sortByTimestamp_pairwise (l : List FirestoreChatDoc) :
    (sortByTimestamp l).Pairwise (fun a b => a.timestamp ≤ b.timestamp) := by
  induction l with
  | nil => simp [sortByTimestamp]
  | cons d rest ih => exact sortInsert_pairwise d _ ih

/-- Every reachable controller state satisfies `ChatInv`. -/
lemma reachable_chatInv {gen : String → Except String String} {uid : String} {now : Nat}
    {s : ChatState} (h : Reachable gen uid now s) : ChatInv s := by
  induction h with
  | loaded r =>
    cases r with
    | ok store =>
      refine ⟨by simp [loadChatHistory, initialChatState], by simp [loadChatHistory, initialChatState], [], ?_⟩
      simp [loadChatHistory, initialChatState, pairMessages]
    | error e =>
      refine ⟨by simp [loadChatHistory, initialChatState], by simp [loadChatHistory, initialChatState], [], ?_⟩
      simp [loadChatHistory, initialChatState, pairMessages, formatMessages]
  | typed t s hs ih =>
    obtain ⟨h1, h2, pairs, h3⟩ := ih
    exact ⟨h1, h2, pairs, h3⟩
  | clicked s hs ih =>
    obtain ⟨h1, h2, pairs, h3⟩ := ih
    by_cases hg : jsTrim s.input = "" ∨ s.loading = true
    · rw [handleSendStart, if_pos hg]
      exact ⟨h1, h2, pairs, h3⟩
    · rw [handleSendStart, if_neg hg]
      push_neg at hg
      have hload : s.loading = false := by
        cases hl : s.loading
        · rfl
        · exact absurd hl hg.2
      have hout : s.outstanding = [] := by
        by_contra hne
        exact absurd (h1.mpr hne) (by simp [hload])
      refine ⟨by simp [hout], by simp [hout], pairs, ?_⟩
      simp only [hout, List.nil_append, List.map_nil, List.append_nil] at h3
      simp [hout, h3, List.append_assoc]
  | resolved s hs ih =>
    obtain ⟨h1, h2, pairs, h3⟩ := ih
    cases hout : s.outstanding with
    | nil =>
      rw [handleSendResolve, hout]
      exact ⟨h1, h2, pairs, by simpa [hout] using h3⟩
    | cons p rest =>
      have hrest : rest = [] := by
        rw [hout] at h2
        simp at h2
        exact h2
      subst hrest
      rw [handleSendResolve, hout]
      cases hgen : generateResponse gen p with
      | mk res n =>
        cases res with
        | ok t =>
          dsimp only
          rw [hgen]
          refine ⟨by simp, by simp, pairs ++ [(p, t)], ?_⟩
          simp only [hout, List.map_cons, List.map_nil] at h3
          simp [h3, pairMessages_append, pairMessages, List.append_assoc]
        | error e =>
          dsimp only
          rw [hgen]
          refine ⟨by simp, by simp, pairs ++ [(p, if e = "" then genericErrorMessage else e)], ?_⟩
          simp only [hout, List.map_cons, List.map_nil] at h3
          simp [h3, pairMessages_append, pairMessages, List.append_assoc]

/-- Unfolding of `handleSendStart` when the guard passes. -/
lemma handleSendStart_pass (s : ChatState)
    (hg : ¬(jsTrim s.input = "" ∨ s.loading = true)) :
    handleSendStart s =
      { s with
        messages := s.messages ++ [⟨jsTrim s.input, Sender.user⟩]
        input := ""
        loading := true
        outstanding := s.outstanding ++ [jsTrim s.input] } := by
  rw [handleSendStart, if_neg hg]

/-- Unfolding of `handleSendResolve` when exactly one call is pending and it
fulfills. -/
lemma handleSendResolve_ok (gen : String → Except String String) (uid : String) (now : Nat)
    (s : ChatState) (p t : String) (n : Nat)
    (hout : s.outstanding = [p]) (hgen : generateResponse gen p = (Except.ok t, n)) :
    handleSendResolve gen uid now s =
      { s with
        messages := s.messages ++ [⟨t, Sender.ai⟩]
        loading := false
        outstanding := []
        genCalls := s.genCalls + n
        writes := s.writes ++ [⟨uid, p, t, now⟩] } := by
  rw [handleSendResolve, hout]
  dsimp only
  rw [hgen]

/-- Unfolding of `handleSendResolve` when exactly one call is pending and it
rejects with message `e`. -/
lemma handleSendResolve_error (gen : String → Except String String) (uid : String) (now : Nat)
    (s : ChatState) (p e : String) (n : Nat)
    (hout : s.outstanding = [p]) (hgen : generateResponse gen p = (Except.error e, n)) :
    handleSendResolve gen uid now s =
      { s with
        messages := s.messages ++ [⟨(if e = "" then genericErrorMessage else e), Sender.ai⟩]
        loading := false
        outstanding := []
        genCalls := s.genCalls + n
        errorLog := s.errorLog ++ [e] } := by
  rw [handleSendResolve, hout]
  dsimp only
  rw [hgen]

/-! ## Claims about the Gemini wrapper -/

/-- C10: for every prompt that is empty or consists only of whitespace,
`generateResponse` itself fails with the error "Prompt cannot be empty" and
the underlying model is never invoked, whatever the model would answer. -/
theorem generateResponse_rejects_empty_prompt
    (gen : String → Except String String) (prompt : String)
    (h : jsTrim prompt = "") :
    generateResponse gen prompt = (Except.error "Prompt cannot be empty", 0) := by
  have hlen : (jsTrim prompt).length = 0 := by rw [h]; rfl
  have hcls : classifyGeminiError "Prompt cannot be empty" = "Prompt cannot be empty" := by
    decide
  rw [generateResponse, if_pos (Or.inr hlen), hcls]

/-- Witness for `generateResponse_rejects_empty_prompt` at the whitespace
prompt `"   "`. -/
theorem generateResponse_rejects_empty_prompt_witness :
    jsTrim "   " = "" ∧
      generateResponse (fun _ => Except.ok "pong") "   "
        = (Except.error "Prompt cannot be empty", 0) :=
  ⟨by decide, generateResponse_rejects_empty_prompt (fun _ => Except.ok "pong") "   " (by decide)⟩

set_option maxRecDepth 10000 in
/-- C5 fails as stated: a quota-exhausted failure is not surfaced verbatim.
The wrapper replaces the service's description by a fixed marker text that
does not contain the original description. -/
theorem gemini_quota_not_verbatim_cex :
    classifyGeminiError "Gemini: quota exceeded for metric q-123" = quotaExceededMessage ∧
    jsIncludes quotaExceededMessage "q-123" = false ∧
    classifyGeminiError "Gemini: quota exceeded for metric q-123"
      ≠ "Gemini: quota exceeded for metric q-123" :=
  ⟨by decide, by decide, by decide⟩

set_option maxRecDepth 10000 in
/-- C5 (amended): classification inspects the failure description: a
quota-exhausted failure is replaced by the fixed quota marker text, a
rate-limited failure by the fixed (distinct) rate-limit marker text, any
other failure is surfaced with the service's own message unchanged, and no
automatic retry is performed — at most one model invocation per call. -/
theorem gemini_error_taxonomy
    (gen : String → Except String String) (e prompt : String) :
    (jsIncludes e "quota" = true → classifyGeminiError e = quotaExceededMessage) ∧
    (jsIncludes e "quota" = false →
      (jsIncludes e "429" || jsIncludes e "Too Many Requests") = true →
        classifyGeminiError e = rateLimitMessage) ∧
    (jsIncludes e "quota" = false →
      (jsIncludes e "429" || jsIncludes e "Too Many Requests") = false →
        classifyGeminiError e = e) ∧
    quotaExceededMessage ≠ rateLimitMessage ∧
    (generateResponse gen prompt).2 ≤ 1 := by
  refine ⟨?_, ?_, ?_, by decide, ?_⟩
  · intro h; simp [classifyGeminiError, h]
  · intro h1 h2; simp [classifyGeminiError, h1, h2]
  · intro h1 h2; simp [classifyGeminiError, h1, h2]
  · by_cases hg : prompt = "" ∨ (jsTrim prompt).length = 0
    · simp [generateResponse, hg]
    · cases hgp : gen prompt with
      | error er => simp [generateResponse, hg, hgp]
      | ok t => simp [generateResponse, hg, hgp]

set_option maxRecDepth 10000 in
/-- Witness for `gemini_error_taxonomy` on a concrete quota error. -/
theorem gemini_error_taxonomy_witness :
    jsIncludes "You exceeded your quota." "quota" = true ∧
      classifyGeminiError "You exceeded your quota." = quotaExceededMessage :=
  ⟨by decide,
   (gemini_error_taxonomy (fun _ => Except.ok "pong") "You exceeded your quota." "hi").1
     (by decide)⟩

/-! ## Claims about `handleSend` -/

/-- C3: a `handleSend` call whose trimmed input is empty, or issued while a
send is in flight, is a no-op: the state is unchanged — in particular the
message sequence, the model-invocation count and the attempted writes. -/
theorem handleSend_guard_noop (gen : String → Except String String) (uid : String) (now : Nat)
    (s : ChatState) (h : jsTrim s.input = "" ∨ s.loading = true) :
    handleSend gen uid now s = s ∧
    (handleSend gen uid now s).messages.length = s.messages.length ∧
    (handleSend gen uid now s).genCalls = s.genCalls ∧
    (handleSend gen uid now s).writes = s.writes := by
  have hz : handleSend gen uid now s = s := by rw [handleSend, if_pos h]
  exact ⟨hz, by rw [hz], by rw [hz], by rw [hz]⟩

/-- Witness for `handleSend_guard_noop` at the whitespace input `"   "`. -/
theorem handleSend_guard_noop_witness :
    (jsTrim "   " = "" ∨ ({ initialChatState with input := "   " } : ChatState).loading = true) ∧
      handleSend (fun _ => Except.ok "pong") "u" 0 { initialChatState with input := "   " }
        = { initialChatState with input := "   " } :=
  ⟨Or.inl (by decide),
   (handleSend_guard_noop (fun _ => Except.ok "pong") "u" 0
      { initialChatState with input := "   " } (Or.inl (by decide))).1⟩

/-- C1 fails as stated: when the raw input carries surrounding whitespace,
the optimistic user bubble and the persisted `userPrompt` hold the trimmed
text, not the raw text. -/
theorem handleSend_trims_raw_input_cex :
    (handleSend (fun _ => Except.ok "hello") "owner-1" 5
        { initialChatState with input := "  hi  " }).messages
      = [⟨"hi", Sender.user⟩, ⟨"hello", Sender.ai⟩] ∧
    (handleSend (fun _ => Except.ok "hello") "owner-1" 5
        { initialChatState with input := "  hi  " }).messages
      ≠ [⟨"  hi  ", Sender.user⟩, ⟨"hello", Sender.ai⟩] ∧
    (handleSend (fun _ => Except.ok "hello") "owner-1" 5
        { initialChatState with input := "  hi  " }).writes
      = [⟨"owner-1", "hi", "hello", 5⟩] :=
  ⟨by decide, by decide, by decide⟩

/-- C1 (amended): a send whose trimmed input is non-empty, with no send in
flight, on generation success extends the sequence by exactly the two
bubbles {trimmed rawText, user} then {returned text, ai}, attempts exactly
one persistence write `{ownerId, userPrompt := trimmed rawText,
aiResponse := returned text, timestamp}`, and leaves the in-flight state. -/
theorem handleSend_success_appends_and_persists
    (gen : String → Except String String) (uid : String) (now : Nat)
    (s : ChatState) (t : String)
    (hin : jsTrim s.input ≠ "") (hload : s.loading = false) (hout : s.outstanding = [])
    (hgen : (generateResponse gen (jsTrim s.input)).1 = Except.ok t) :
    (handleSend gen uid now s).messages
      = s.messages ++ [⟨jsTrim s.input, Sender.user⟩, ⟨t, Sender.ai⟩] ∧
    (handleSend gen uid now s).writes = s.writes ++ [⟨uid, jsTrim s.input, t, now⟩] ∧
    (handleSend gen uid now s).loading = false := by
  have hg : ¬(jsTrim s.input = "" ∨ s.loading = true) := by
    rintro (h | h)
    · exact hin h
    · rw [hload] at h; exact Bool.false_ne_true h
  have hpair : generateResponse gen (jsTrim s.input)
      = (Except.ok t, (generateResponse gen (jsTrim s.input)).2) :=
    Prod.ext_iff.mpr ⟨hgen, rfl⟩
  have hstep : handleSend gen uid now s
      = handleSendResolve gen uid now (handleSendStart s) := by
    rw [handleSend, if_neg hg]
  rw [hstep, handleSendStart_pass s hg,
    handleSendResolve_ok gen uid now _ (jsTrim s.input) t
      ((generateResponse gen (jsTrim s.input)).2) (by simp [hout]) hpair]
  refine ⟨by simp, by simp, rfl⟩

/-- Witness for `handleSend_success_appends_and_persists` at input `"hi"`
and a model answering `"hello"`. -/
theorem handleSend_success_appends_and_persists_witness :
    jsTrim "hi" ≠ "" ∧
    (handleSend (fun _ => Except.ok "hello") "owner-1" 7
        { initialChatState with input := "hi" }).messages
      = [⟨"hi", Sender.user⟩, ⟨"hello", Sender.ai⟩] ∧
    (handleSend (fun _ => Except.ok "hello") "owner-1" 7
        { initialChatState with input := "hi" }).writes
      = [⟨"owner-1", "hi", "hello", 7⟩] :=
  ⟨by decide,
   (handleSend_success_appends_and_persists (fun _ => Except.ok "hello") "owner-1" 7
      { initialChatState with input := "hi" } "hello" (by decide) rfl rfl (by decide)).1,
   (handleSend_success_appends_and_persists (fun _ => Except.ok "hello") "owner-1" 7
      { initialChatState with input := "hi" } "hello" (by decide) rfl rfl (by decide)).2.1⟩

/-- C4: a send passing the guard whose generation call fails extends the
sequence by exactly one ai bubble beyond the optimistic user bubble,
holding the failure's description (or the generic fallback when the
description is empty); the in-flight flag is cleared and nothing is
persisted. -/
theorem handleSend_failure_appends_error_only
    (gen : String → Except String String) (uid : String) (now : Nat)
    (s : ChatState) (e : String)
    (hin : jsTrim s.input ≠ "") (hload : s.loading = false) (hout : s.outstanding = [])
    (hgen : (generateResponse gen (jsTrim s.input)).1 = Except.error e) :
    (handleSend gen uid now s).messages
      = s.messages ++ [⟨jsTrim s.input, Sender.user⟩,
          ⟨(if e = "" then genericErrorMessage else e), Sender.ai⟩] ∧
    (handleSend gen uid now s).loading = false ∧
    (handleSend gen uid now s).writes = s.writes := by
  have hg : ¬(jsTrim s.input = "" ∨ s.loading = true) := by
    rintro (h | h)
    · exact hin h
    · rw [hload] at h; exact Bool.false_ne_true h
  have hpair : generateResponse gen (jsTrim s.input)
      = (Except.error e, (generateResponse gen (jsTrim s.input)).2) :=
    Prod.ext_iff.mpr ⟨hgen, rfl⟩
  have hstep : handleSend gen uid now s
      = handleSendResolve gen uid now (handleSendStart s) := by
    rw [handleSend, if_neg hg]
  rw [hstep, handleSendStart_pass s hg,
    handleSendResolve_error gen uid now _ (jsTrim s.input) e
      ((generateResponse gen (jsTrim s.input)).2) (by simp [hout]) hpair]
  refine ⟨by simp, rfl, rfl⟩

/-- Witness for `handleSend_failure_appends_error_only` at input `"hi"` and
a model rejecting with `"boom"`. -/
theorem handleSend_failure_appends_error_only_witness :
    jsTrim "hi" ≠ "" ∧
    (handleSend (fun _ => Except.error "boom") "u" 0
        { initialChatState with input := "hi" }).messages
      = [⟨"hi", Sender.user⟩, ⟨"boom", Sender.ai⟩] ∧
    (handleSend (fun _ => Except.error "boom") "u" 0
        { initialChatState with input := "hi" }).writes = [] :=
  ⟨by decide,
   by
    have h := (handleSend_failure_appends_error_only (fun _ => Except.error "boom") "u" 0
      { initialChatState with input := "hi" } "boom" (by decide) rfl rfl (by decide)).1
    simpa using h,
   (handleSend_failure_appends_error_only (fun _ => Except.error "boom") "u" 0
      { initialChatState with input := "hi" } "boom" (by decide) rfl rfl (by decide)).2.2⟩

/-! ## Claims about `loadChatHistory` and the step relation -/

/-- C2: for a store holding N turns of the owner, the history load yields
exactly 2N bubbles; the queried turns are in ascending timestamp order and
each turn expands to its user bubble immediately followed by its ai
bubble. -/
theorem loadChatHistory_flattens (uid : String) (store : List FirestoreChatDoc) (s : ChatState) :
    (loadChatHistory (some uid) (Except.ok store) s).messages.length
      = 2 * (store.filter (fun d => d.userId == uid)).length ∧
    ((chatQuery store uid).map toHistoryEntry).Pairwise
      (fun a b => a.timestamp ≤ b.timestamp) ∧
    (∀ i, (h : i < ((chatQuery store uid).map toHistoryEntry).length) →
      (loadChatHistory (some uid) (Except.ok store) s).messages.drop (2 * i)
        = ⟨(((chatQuery store uid).map toHistoryEntry).get ⟨i, h⟩).userPrompt, Sender.user⟩
            :: ⟨(((chatQuery store uid).map toHistoryEntry).get ⟨i, h⟩).aiResponse, Sender.ai⟩
            :: (loadChatHistory (some uid) (Except.ok store) s).messages.drop (2 * i + 2)) := by
  have hmsg : (loadChatHistory (some uid) (Except.ok store) s).messages
      = formatMessages ((chatQuery store uid).map toHistoryEntry) := rfl
  refine ⟨?_, ?_, ?_⟩
  · rw [hmsg, formatMessages_length]
    simp [chatQuery, sortByTimestamp_length]
  · exact List.pairwise_map.mpr (sortByTimestamp_pairwise _)
  · intro i h
    have h2 : 2 * i + 2 = 2 * (i + 1) := by omega
    rw [hmsg, formatMessages_drop, h2, formatMessages_drop,
      List.drop_eq_getElem_cons h]
    simp [formatMessages, List.get_eq_getElem]

/-- Witness for `loadChatHistory_flattens` on a two-turn store fetched out
of timestamp order. -/
theorem loadChatHistory_flattens_witness :
    (0 < ((chatQuery [⟨"u", "p1", "r1", 2⟩, ⟨"u", "p0", "r0", 1⟩] "u").map toHistoryEntry).length) ∧
    (loadChatHistory (some "u") (Except.ok [⟨"u", "p1", "r1", 2⟩, ⟨"u", "p0", "r0", 1⟩])
        initialChatState).messages.length = 2 * 2 ∧
    (loadChatHistory (some "u") (Except.ok [⟨"u", "p1", "r1", 2⟩, ⟨"u", "p0", "r0", 1⟩])
        initialChatState).messages.drop 0
      = ⟨"p0", Sender.user⟩ :: ⟨"r0", Sender.ai⟩
          :: (loadChatHistory (some "u") (Except.ok [⟨"u", "p1", "r1", 2⟩, ⟨"u", "p0", "r0", 1⟩])
              initialChatState).messages.drop 2 :=
  ⟨by decide,
   (loadChatHistory_flattens "u" [⟨"u", "p1", "r1", 2⟩, ⟨"u", "p0", "r0", 1⟩]
      initialChatState).1,
   (loadChatHistory_flattens "u" [⟨"u", "p1", "r1", 2⟩, ⟨"u", "p0", "r0", 1⟩]
      initialChatState).2.2 0 (by decide)⟩

/-- C6 fails as stated: after a failed send, the sequence holds a
prompt/error pair although no turn was ever persisted nor submitted for
persistence — the sequence is not a flattening of persisted turns followed
by turns pending persistence.  The state below is reachable (history load,
typing, click, failing resolution). -/
theorem failed_turn_never_persisted_cex :
    Reachable (fun _ => Except.error "boom") "u" 0
      (handleSendResolve (fun _ => Except.error "boom") "u" 0
        (handleSendStart (setInputState "hi"
          (loadChatHistory (some "u") (Except.ok []) initialChatState)))) ∧
    (handleSendResolve (fun _ => Except.error "boom") "u" 0
        (handleSendStart (setInputState "hi"
          (loadChatHistory (some "u") (Except.ok []) initialChatState)))).messages
      = [⟨"hi", Sender.user⟩, ⟨"boom", Sender.ai⟩] ∧
    (handleSendResolve (fun _ => Except.error "boom") "u" 0
        (handleSendStart (setInputState "hi"
          (loadChatHistory (some "u") (Except.ok []) initialChatState)))).writes = [] ∧
    (handleSendResolve (fun _ => Except.error "boom") "u" 0
        (handleSendStart (setInputState "hi"
          (loadChatHistory (some "u") (Except.ok []) initialChatState)))).loadedTurns = [] ∧
    formatMessages
        ((handleSendResolve (fun _ => Except.error "boom") "u" 0
          (handleSendStart (setInputState "hi"
            (loadChatHistory (some "u") (Except.ok []) initialChatState)))).loadedTurns)
      ++ formatMessages
          (((handleSendResolve (fun _ => Except.error "boom") "u" 0
            (handleSendStart (setInputState "hi"
              (loadChatHistory (some "u") (Except.ok []) initialChatState)))).writes).map
            toHistoryEntry)
      ≠ (handleSendResolve (fun _ => Except.error "boom") "u" 0
          (handleSendStart (setInputState "hi"
            (loadChatHistory (some "u") (Except.ok []) initialChatState)))).messages :=
  ⟨Reachable.resolved _ (Reachable.clicked _ (Reachable.typed "hi" _
      (Reachable.loaded (Except.ok [])))),
   by decide, by decide, by decide, by decide⟩

/-- C6 (amended): in every reachable state the sequence is the flattening of
the turns returned by the history load, followed by zero or more
prompt/reply pairs appended by resolved sends (successful or failed — the
failed ones are never submitted for persistence), plus at most the
optimistic user bubble of an in-flight send; and no operation ever removes
a message — each one extends the sequence by appending. -/
theorem chat_messages_flattening_append_only
    (gen : String → Except String String) (uid : String) (now : Nat) :
    (∀ s : ChatState, Reachable gen uid now s →
      ∃ pairs : List (String × String),
        s.messages = formatMessages s.loadedTurns ++ pairMessages pairs
          ++ s.outstanding.map (fun p => ⟨p, Sender.user⟩)) ∧
    (∀ s : ChatState, ∃ t, (handleSendStart s).messages = s.messages ++ t) ∧
    (∀ s : ChatState, ∃ t, (handleSendResolve gen uid now s).messages = s.messages ++ t) ∧
    (∀ t s, (setInputState t s).messages = s.messages) := by
  refine ⟨fun s hs => (reachable_chatInv hs).2.2, ?_, ?_, fun t s => rfl⟩
  · intro s
    by_cases hg : jsTrim s.input = "" ∨ s.loading = true
    · exact ⟨[], by rw [handleSendStart, if_pos hg]; simp⟩
    · exact ⟨[⟨jsTrim s.input, Sender.user⟩], by rw [handleSendStart_pass s hg]⟩
  · intro s
    cases hout : s.outstanding with
    | nil => exact ⟨[], by rw [handleSendResolve, hout]; simp⟩
    | cons p rest =>
      cases hgen : generateResponse gen p with
      | mk res n =>
        cases res with
        | ok t =>
          refine ⟨[⟨t, Sender.ai⟩], ?_⟩
          rw [handleSendResolve, hout]
          dsimp only
          rw [hgen]
        | error e =>
          refine ⟨[⟨(if e = "" then genericErrorMessage else e), Sender.ai⟩], ?_⟩
          rw [handleSendResolve, hout]
          dsimp only
          rw [hgen]

/-- Witness for `chat_messages_flattening_append_only` at the state reached
by a failing history load. -/
theorem chat_messages_flattening_append_only_witness :
    ∃ pairs : List (String × String),
      (loadChatHistory (some "u") (Except.error "net down") initialChatState).messages
        = formatMessages
            (loadChatHistory (some "u") (Except.error "net down") initialChatState).loadedTurns
          ++ pairMessages pairs
          ++ (loadChatHistory (some "u") (Except.error "net down")
                initialChatState).outstanding.map (fun p => ⟨p, Sender.user⟩) :=
  (chat_messages_flattening_append_only (fun _ => Except.ok "pong") "u" 0).1 _
    (Reachable.loaded (Except.error "net down"))

/-- C7: in every reachable state at most one generation call is
outstanding; the in-flight flag holds exactly while a call is pending; a
send clicked while in flight changes nothing (it is rejected, not queued);
and the resolution of the pending call clears the flag on both the success
and the failure path. -/
theorem chat_mutual_exclusion
    (gen : String → Except String String) (uid : String) (now : Nat)
    (s : ChatState) (hs : Reachable gen uid now s) :
    s.outstanding.length ≤ 1 ∧
    (s.loading = true ↔ s.outstanding ≠ []) ∧
    (s.loading = true → handleSendStart s = s) ∧
    (∀ p rest, s.outstanding = p :: rest →
      (handleSendResolve gen uid now s).loading = false ∧
      (handleSendResolve gen uid now s).outstanding = rest) := by
  obtain ⟨h1, h2, _⟩ := reachable_chatInv hs
  refine ⟨h2, h1, ?_, ?_⟩
  · intro hl
    rw [handleSendStart, if_pos (Or.inr hl)]
  · intro p rest hout
    rw [handleSendResolve, hout]
    dsimp only
    cases hres : (generateResponse gen p).1 with
    | ok t => exact ⟨rfl, rfl⟩
    | error e => exact ⟨rfl, rfl⟩

/-- Witness for `chat_mutual_exclusion` at the state reached by a
successful empty history load. -/
theorem chat_mutual_exclusion_witness :
    (loadChatHistory (some "u") (Except.ok []) initialChatState).outstanding.length ≤ 1 ∧
    ((loadChatHistory (some "u") (Except.ok []) initialChatState).loading = true ↔
      (loadChatHistory (some "u") (Except.ok []) initialChatState).outstanding ≠ []) :=
  ⟨(chat_mutual_exclusion (fun _ => Except.ok "pong") "u" 0 _
      (Reachable.loaded (Except.ok []))).1,
   (chat_mutual_exclusion (fun _ => Except.ok "pong") "u" 0 _
      (Reachable.loaded (Except.ok []))).2.1⟩

/-- C8: when the history query fails, the error is logged, the message
sequence stays empty, and the failure is non-fatal: a subsequent send with
non-blank input passes the guard, appends its optimistic user bubble and
enters the in-flight state. -/
theorem loadChatHistory_failure_nonfatal (uid e raw : String) (hraw : jsTrim raw ≠ "") :
    (loadChatHistory (some uid) (Except.error e) initialChatState).messages = [] ∧
    (loadChatHistory (some uid) (Except.error e) initialChatState).errorLog = [e] ∧
    (handleSendStart (setInputState raw
        (loadChatHistory (some uid) (Except.error e) initialChatState))).messages
      = [⟨jsTrim raw, Sender.user⟩] ∧
    (handleSendStart (setInputState raw
        (loadChatHistory (some uid) (Except.error e) initialChatState))).loading = true := by
  have hg : ¬(jsTrim (setInputState raw
      (loadChatHistory (some uid) (Except.error e) initialChatState)).input = ""
      ∨ (setInputState raw
          (loadChatHistory (some uid) (Except.error e) initialChatState)).loading = true) := by
    rintro (h | h)
    · exact hraw h
    · exact Bool.false_ne_true h
  have hstart := handleSendStart_pass _ hg
  exact ⟨rfl, rfl, by rw [hstart]; rfl, by rw [hstart]⟩

/-- Witness for `loadChatHistory_failure_nonfatal` with input `"hi"` after
a failed query. -/
theorem loadChatHistory_failure_nonfatal_witness :
    jsTrim "hi" ≠ "" ∧
    (loadChatHistory (some "u") (Except.error "net down") initialChatState).messages = [] ∧
    (handleSendStart (setInputState "hi"
        (loadChatHistory (some "u") (Except.error "net down") initialChatState))).loading
      = true :=
  ⟨by decide,
   (loadChatHistory_failure_nonfatal "u" "net down" "hi" (by decide)).1,
   (loadChatHistory_failure_nonfatal "u" "net down" "hi" (by decide)).2.2.2⟩

/-- C9: the history effect runs once per owner: rendering the component a
second time for the same owner issues no further store query and leaves the
whole cell — message sequence included — exactly as the first render left
it. -/
theorem chat_effect_runs_once_per_owner
    (uid : String) (queryResult : Except String (List FirestoreChatDoc)) (c : EffectCell)
    (hdeps : c.lastDeps = none) (hq : c.queries = 0) :
    (renderChatEffect queryResult (some uid) c).queries = 1 ∧
    renderChatEffect queryResult (some uid) (renderChatEffect queryResult (some uid) c)
      = renderChatEffect queryResult (some uid) c := by
  have h1 : ¬(c.lastDeps = some (some uid)) := by rw [hdeps]; simp
  have hfirst : renderChatEffect queryResult (some uid) c
      = { lastDeps := some (some uid), queries := c.queries + 1,
          state := loadChatHistory (some uid) queryResult c.state } := by
    rw [renderChatEffect, if_neg h1]
  constructor
  · rw [hfirst, hq]
  · rw [hfirst]
    rw [renderChatEffect, if_pos rfl]

/-- Witness for `chat_effect_runs_once_per_owner` on a freshly mounted
cell. -/
theorem chat_effect_runs_once_per_owner_witness :
    (renderChatEffect (Except.ok []) (some "u") ⟨none, 0, initialChatState⟩).queries = 1 ∧
    renderChatEffect (Except.ok []) (some "u")
        (renderChatEffect (Except.ok []) (some "u") ⟨none, 0, initialChatState⟩)
      = renderChatEffect (Except.ok []) (some "u") ⟨none, 0, initialChatState⟩ :=
  chat_effect_runs_once_per_owner "u" (Except.ok []) ⟨none, 0, initialChatState⟩ rfl rfl
